import Mathlib

/-!
Verification development for the response-interpretation and
consensus-aggregation engine of the bullshit-detector service
(source: app.py).

The engine is embedded shallowly:

* response text is a `List Char` (Python `str`, ASCII fragment relevant
  to the fixed English pattern vocabulary);
* Python `str.lower` and `str.upper` become `Char.toLower` / `Char.toUpper`
  maps;
* the regular expressions used by `detect_recusal` and
  `detect_policy_limitation` are all of the shape
  `\b<literal>\b` or `\b<lit1>[<boundary>].*<lit2>\b`, where every literal
  starts and ends with a word character; they are embedded by explicit
  scanners over `List Char` (`occSearch`, `seqScan`) implementing the
  word-boundary test of Python `re` (`\w` = alphanumeric or underscore,
  `.` does not match a newline);
* Python float arithmetic on confidences is modelled by exact rationals;
  Python `round` (round-half-to-even) is `pyRound`;
* the input dictionary of per-provider responses becomes an association
  list `List (String × MResp)`; dictionary semantics (unique keys) are a
  `Nodup` hypothesis on theorems that need it;
* `analyze_responses` raises `UnboundLocalError` when the set of
  substantive judgments is empty, because its final logging line reads the
  local `agreement_count`, which is assigned only on the non-empty branch;
  the embedding returns `Except.error` in that case.
-/

/-- Apostrophe character, built numerically (appears inside several
pattern literals of the source, such as ISN'T). -/
def apos : Char := Char.ofNat 39

/-- Backquote character, used by the markdown stripper. -/
def backquote : Char := Char.ofNat 96

/-- Word character in the sense of the `\w` class of Python `re`
(ASCII fragment): alphanumeric or underscore. -/
def isWordChar (c : Char) : Bool := c.isAlphanum || c = '_'

/-- Whitespace in the sense of the `\s` class of Python `re`
(ASCII fragment). -/
def isPySpace (c : Char) : Bool :=
  c = ' ' || c = '\t' || c = '\n' || c = '\r' || c = Char.ofNat 11 || c = Char.ofNat 12

/-- Python `str.lower` (ASCII fragment). -/
def lowerList (t : List Char) : List Char := t.map Char.toLower

/-- Python `str.upper` (ASCII fragment). -/
def upperList (t : List Char) : List Char := t.map Char.toUpper

/-- Python substring test `p in s`. -/
def listContains (p : List Char) : List Char → Bool
  | [] => p.isEmpty
  | c :: rest => p.isPrefixOf (c :: rest) || listContains p rest

/-- Word-boundary test on the left of a match: the previous character
(if any) is not a word character.  Start of string counts as a boundary. -/
def boundaryBeforeOk : Option Char → Bool
  | none => true
  | some c => !isWordChar c

/-- Word-boundary test on the right of a match: the next character
(if any) is not a word character.  End of string counts as a boundary. -/
def boundaryAfterOk : List Char → Bool
  | [] => true
  | c :: _ => !isWordChar c

/-- Scanner for `re.search` of a literal pattern `p` (which starts and ends
with a word character) with a mandatory trailing `\b` and an optional
leading `\b`; `prev` is the character just before the current position. -/
def occSearch (p : List Char) (needBefore : Bool) (prev : Option Char) : List Char → Bool
  | [] => false
  | c :: rest =>
    ((!needBefore || boundaryBeforeOk prev) && p.isPrefixOf (c :: rest)
        && boundaryAfterOk (List.drop p.length (c :: rest)))
      || occSearch p needBefore (some c) rest

/-- Test for `re.search(r"\bp\b", s)` where `p` is a literal that starts
and ends with a word character. -/
def wordOccurs (p s : List Char) : Bool := occSearch p true none s

/-- Scanner for `re.search` of a pattern `\b p1 (\b)? .* (\b)? p2 \b`
without DOTALL: after a `\b`-anchored occurrence of `p1`, the lazy `.*`
may consume any characters except a newline before `p2`. -/
def seqScan (p1 p2 : List Char) (b1after b2before : Bool) (prev : Option Char) :
    List Char → Bool
  | [] => false
  | c :: rest =>
    (boundaryBeforeOk prev && p1.isPrefixOf (c :: rest)
        && (!b1after || boundaryAfterOk (List.drop p1.length (c :: rest)))
        && occSearch p2 b2before (some (p1.getLastD c))
            ((List.drop p1.length (c :: rest)).takeWhile (fun x => !(x = '\n'))))
      || seqScan p1 p2 b1after b2before (some c) rest

/-- Test for the two-literal sequential patterns with an intervening
lazy `.*` (no DOTALL). -/
def seqOccurs (p1 p2 : List Char) (b1after b2before : Bool) (s : List Char) : Bool :=
  seqScan p1 p2 b1after b2before none s

/-- Pattern literal: i don't feel comfortable. -/
def pat_dont_feel : List Char := "i don".toList ++ [apos] ++ "t feel comfortable".toList

/-- Pattern literal: it's important to rely on. -/
def pat_its_important : List Char := "it".toList ++ [apos] ++ "s important to rely on".toList

/-- Pattern literal: i'm not comfortable speculating. -/
def pat_im_not_comfortable : List Char := "i".toList ++ [apos] ++ "m not comfortable speculating".toList

/-- Pattern literal: ISN'T FALSE. -/
def pat_isnt_false : List Char := "ISN".toList ++ [apos] ++ "T FALSE".toList

/-- Pattern literal: ISN'T TRUE. -/
def pat_isnt_true : List Char := "ISN".toList ++ [apos] ++ "T TRUE".toList

/-- Embedding of `detect_recusal` (app.py lines 150-167): case-insensitive
search of the fixed recusal regexes on the lower-cased content. -/
def detect_recusal (content : List Char) : Bool :=
  let s := lowerList content
  wordOccurs "recuse".toList s
    || wordOccurs "paradox".toList s
    || wordOccurs "self-referential".toList s
    || wordOccurs "cannot be definitively labeled".toList s
    || wordOccurs "inherently unanswerable".toList s
    || seqOccurs "philosophical".toList "objection".toList true true s
    || wordOccurs "category error".toList s
    || wordOccurs "unanswerable by design".toList s

/-- Embedding of `detect_policy_limitation` (app.py lines 169-187):
case-insensitive search of the fixed policy regexes on the lower-cased
content.  The alternation `i (don't|do not) feel comfortable` is expanded
into its two literal branches. -/
def detect_policy_limitation (content : List Char) : Bool :=
  let s := lowerList content
  wordOccurs "policy_limited".toList s
    || wordOccurs pat_dont_feel s
    || wordOccurs "i do not feel comfortable".toList s
    || seqOccurs "i apologize".toList "cannot".toList false false s
    || wordOccurs "not appropriate to discuss".toList s
    || wordOccurs "recommend consulting".toList s
    || wordOccurs "would suggest referring to".toList s
    || wordOccurs "please consult official sources".toList s
    || wordOccurs pat_its_important s
    || wordOccurs pat_im_not_comfortable s

/-- Uncertainty-vocabulary list of `analyze_responses` (app.py lines
317-322), matched as plain substrings of the lower-cased text. -/
def uncertainty_phrases : List (List Char) :=
  ["cannot be definitively answered".toList, "complex issue".toList,
   "not enough evidence".toList, "remains disputed".toList,
   "difficult to determine".toList, "would require more information".toList,
   "cannot be answered with a simple".toList, "insufficient evidence".toList,
   "uncertain".toList, "depends on".toList, "ambiguous".toList,
   "unclear".toList, "debated".toList, "controversial".toList]

/-- Uncertainty flag of the classifier (app.py line 342): some uncertainty
phrase occurs in the lower-cased content. -/
def uncertaintyFlag (t : List Char) : Bool :=
  uncertainty_phrases.any (fun p => listContains p (lowerList t))

/-- Condition under which the classifier treats FALSE as asserted
(app.py line 345): the upper-cased content contains FALSE and contains
neither NOT FALSE nor ISN'T FALSE. -/
def false_asserted (content : List Char) : Bool :=
  listContains "FALSE".toList content
    && !(listContains "NOT FALSE".toList content || listContains pat_isnt_false content)

/-- Condition under which the classifier treats TRUE as asserted
(app.py line 351): the upper-cased content contains TRUE and contains
neither NOT TRUE nor ISN'T TRUE. -/
def true_asserted (content : List Char) : Bool :=
  listContains "TRUE".toList content
    && !(listContains "NOT TRUE".toList content || listContains pat_isnt_true content)

/-- Per-model judgment labels. -/
inductive Judgment where
  | TRUE
  | FALSE
  | UNCERTAIN
  | RECUSE
  | POLICY_LIMITED
deriving DecidableEq, Repr

/-- Embedding of the explicit-judgment extraction of `analyze_responses`
(app.py lines 338-362), for a response that passed the opt-out checks. -/
def classifyText (t : List Char) : Judgment :=
  if false_asserted (upperList t) then
    (if uncertaintyFlag t then .UNCERTAIN else .FALSE)
  else if true_asserted (upperList t) then
    (if uncertaintyFlag t then .UNCERTAIN else .TRUE)
  else if listContains "UNCERTAIN".toList (upperList t) || uncertaintyFlag t then .UNCERTAIN
  else .UNCERTAIN

/-- Per-model label of a successful, non-empty response: recusal check
first, then policy-limitation check, then explicit-judgment extraction
(app.py lines 328-362). -/
def labelResponse (t : List Char) : Judgment :=
  if detect_recusal t then .RECUSE
  else if detect_policy_limitation t then .POLICY_LIMITED
  else classifyText t

/-- Standardized provider response, as produced by `query_model`; only the
`success` and `content` fields reach the aggregator. -/
structure MResp where
  success : Bool
  content : Option (List Char)
deriving DecidableEq, Repr

/-- Judgment derived from one provider response, or `none` when the
response is skipped because it failed or has empty content
(app.py lines 324-325, Python truthiness of `success and content`). -/
def labelOf (r : MResp) : Option Judgment :=
  match r.content with
  | none => none
  | some t => if r.success && !t.isEmpty then some (labelResponse t) else none

/-- Judgment map built by the per-response loop of `analyze_responses`
(app.py lines 324-362); association list in insertion order. -/
def buildJudgments (rs : List (String × MResp)) : List (String × Judgment) :=
  rs.filterMap (fun mr => (labelOf mr.2).map (fun j => (mr.1, j)))

/-- Providers recorded in `policy_limited_responses` (app.py line 335). -/
def policy_limited_responses (rs : List (String × MResp)) : List String :=
  (buildJudgments rs).filterMap
    (fun p => if p.2 = Judgment.POLICY_LIMITED then some p.1 else none)

/-- Providers recorded in `uncertain_responses` (app.py lines 348, 354,
359, 362): exactly those whose stored judgment is UNCERTAIN. -/
def uncertain_responses (rs : List (String × MResp)) : List String :=
  (buildJudgments rs).filterMap
    (fun p => if p.2 = Judgment.UNCERTAIN then some p.1 else none)

/-- Substantive judgments: RECUSE and POLICY_LIMITED entries dropped
(app.py line 365). -/
def substantive_judgments (rs : List (String × MResp)) : List (String × Judgment) :=
  (buildJudgments rs).filter
    (fun p => !(p.2 = Judgment.RECUSE || p.2 = Judgment.POLICY_LIMITED))

/-- Count of one judgment value among the substantive judgments
(app.py lines 366-368). -/
def judgment_count (rs : List (String × MResp)) (j : Judgment) : ℕ :=
  (substantive_judgments rs).countP (fun p => p.2 = j)

/-- Number of substantive judgments, `total_models` in the source
(app.py line 375). -/
def total_models (rs : List (String × MResp)) : ℕ :=
  (substantive_judgments rs).length

/-- Majority verdict before the tie override (app.py lines 376-385).
The `max` over the tuples ("TRUE", ct), ("FALSE", cf), ("UNCERTAIN", cu)
returns the first entry of maximal count.  The uncertainty-dominance test
uses Python float division, modelled by rational division. -/
def rawVerdict (rs : List (String × MResp)) : Judgment :=
  if (judgment_count rs Judgment.UNCERTAIN : ℚ) ≥ (total_models rs : ℚ) / 3
      ∨ judgment_count rs Judgment.UNCERTAIN ≥ 2 then
    Judgment.UNCERTAIN
  else if judgment_count rs Judgment.FALSE ≤ judgment_count rs Judgment.TRUE
      ∧ judgment_count rs Judgment.UNCERTAIN ≤ judgment_count rs Judgment.TRUE then
    Judgment.TRUE
  else if judgment_count rs Judgment.UNCERTAIN ≤ judgment_count rs Judgment.FALSE then
    Judgment.FALSE
  else Judgment.UNCERTAIN

/-- Final verdict, after the TRUE/FALSE tie override (app.py lines
387-389). -/
def verdictOf (rs : List (String × MResp)) : Judgment :=
  if judgment_count rs Judgment.TRUE = judgment_count rs Judgment.FALSE
      ∧ 0 < judgment_count rs Judgment.TRUE then
    Judgment.UNCERTAIN
  else rawVerdict rs

/-- Number of policy-limited providers whose stored judgment equals the
verdict (app.py lines 404-405). -/
def policy_aligned (rs : List (String × MResp)) (v : Judgment) : ℕ :=
  (policy_limited_responses rs).countP
    (fun m => (buildJudgments rs).lookup m = some v)

/-- Pre-penalty confidence of a TRUE/FALSE verdict (app.py lines 404-420):
`non_policy_total` is `total_models - len(policy_limited_responses)`. -/
def confidence_true_false (rs : List (String × MResp)) (v : Judgment) : ℚ :=
  if ((policy_limited_responses rs).length : ℤ) < (total_models rs : ℤ) then
    min 100
      (((judgment_count rs v : ℚ) - (policy_aligned rs v : ℚ))
          / ((total_models rs : ℚ) - ((policy_limited_responses rs).length : ℚ)) * 100
        + (policy_aligned rs v : ℚ) / (total_models rs : ℚ) * 20)
  else (judgment_count rs v : ℚ) / (total_models rs : ℚ) * 90

/-- Confidence value before rounding (app.py lines 391-425), including the
UNCERTAIN cap and the uncertainty penalty. -/
def confidenceOf (rs : List (String × MResp)) : ℚ :=
  if total_models rs = 0 then 0
  else if verdictOf rs = Judgment.UNCERTAIN then
    min 70 ((judgment_count rs (verdictOf rs) : ℚ) / (total_models rs : ℚ) * 100)
  else if 0 < judgment_count rs Judgment.UNCERTAIN then
    max 40
      (confidence_true_false rs (verdictOf rs)
        - (judgment_count rs Judgment.UNCERTAIN : ℚ) / (total_models rs : ℚ) * 30)
  else confidence_true_false rs (verdictOf rs)

/-- Confidence level text from a confidence value (app.py lines 427-437);
the source applies it to the value before rounding. -/
def confidence_level (q : ℚ) : String :=
  if q ≥ 90 then "VERY HIGH"
  else if q ≥ 70 then "HIGH"
  else if q ≥ 50 then "MEDIUM"
  else if q ≥ 30 then "LOW"
  else "VERY LOW"

/-- Python `round` on rationals: round half to even. -/
def pyRound (q : ℚ) : ℤ :=
  if q - (⌊q⌋ : ℚ) = 1 / 2 then (if ⌊q⌋ % 2 = 0 then ⌊q⌋ else ⌊q⌋ + 1)
  else ⌊q + 1 / 2⌋

/-- Result record returned by `analyze_responses` (app.py lines 441-448). -/
structure AnalysisResult where
  verdict : Judgment
  confidence_percentage : ℤ
  confidence_level : String
  model_judgments : List (String × Judgment)
  policy_limited_responses : List String
  uncertain_responses : List String
deriving DecidableEq, Repr

/-- Embedding of `analyze_responses` (app.py lines 292-448).  When no
substantive judgment exists, the final logging line (app.py line 439)
reads the local `agreement_count`, which was assigned only on the branch
with `total_models > 0`; Python then raises `UnboundLocalError`, modelled
here as `Except.error`. -/
def analyze_responses (rs : List (String × MResp)) : Except String AnalysisResult :=
  if total_models rs = 0 then
    Except.error "UnboundLocalError: local variable agreement_count referenced before assignment"
  else
    Except.ok
      { verdict := verdictOf rs
        confidence_percentage := pyRound (confidenceOf rs)
        confidence_level := confidence_level (confidenceOf rs)
        model_judgments := buildJudgments rs
        policy_limited_responses := policy_limited_responses rs
        uncertain_responses := uncertain_responses rs }

/-- Scanner for the lazy closing delimiter of `\*(.*?)\*` and of
`(backquote)(.*?)(backquote)`: returns the content before the first
`stop` character and the remainder after it, failing at a newline or at
the end of the string. -/
def findCloseChar (stop : Char) (acc : List Char) : List Char → Option (List Char × List Char)
  | [] => none
  | c :: rest =>
    if c = stop then some (acc.reverse, rest)
    else if c = '\n' then none
    else findCloseChar stop (c :: acc) rest

theorem findCloseChar_shrink (stop : Char) (acc l : List Char) (ca : List Char × List Char)
    (h : findCloseChar stop acc l = some ca) : ca.2.length < l.length := by
  induction l generalizing acc with
  | nil => simp [findCloseChar] at h
  | cons c rest ih =>
    rw [findCloseChar] at h
    split at h
    · cases h; simp
    · split at h
      · cases h
      · exact Nat.lt_trans (ih _ h) (by simp)

/-- Scanner for the lazy closing `\*\*` of the bold pattern: returns the
content before the first two adjacent asterisks and the remainder after
them, failing at a newline or at the end of the string. -/
def findCloseStar2 (acc : List Char) : List Char → Option (List Char × List Char)
  | [] => none
  | c :: rest =>
    if c = '*' ∧ rest.head? = some '*' then some (acc.reverse, rest.tail)
    else if c = '\n' then none
    else findCloseStar2 (c :: acc) rest

theorem findCloseStar2_shrink (acc l : List Char) (ca : List Char × List Char)
    (h : findCloseStar2 acc l = some ca) : ca.2.length < l.length := by
  induction l generalizing acc with
  | nil => simp [findCloseStar2] at h
  | cons c rest ih =>
    rw [findCloseStar2] at h
    split at h
    · cases h
      exact Nat.lt_succ_of_le (List.length_tail _ ▸ Nat.sub_le _ _)
    · split at h
      · cases h
      · exact Nat.lt_trans (ih _ h) (by simp)

/-- Scanner for the lazy closing triple backquote of the fenced-code
pattern (DOTALL: newlines allowed): returns the remainder after the first
closing fence. -/
def findFenceClose : List Char → Option (List Char)
  | [] => none
  | c :: rest =>
    if c = backquote ∧ rest.head? = some backquote ∧ rest.tail.head? = some backquote then
      some rest.tail.tail
    else findFenceClose rest

theorem findFenceClose_shrink (l after : List Char)
    (h : findFenceClose l = some after) : after.length < l.length := by
  induction l with
  | nil => simp [findFenceClose] at h
  | cons c rest ih =>
    rw [findFenceClose] at h
    split at h
    · cases h
      refine Nat.lt_succ_of_le ?_
      calc rest.tail.tail.length ≤ rest.tail.length :=
            List.length_tail _ ▸ Nat.sub_le _ _
        _ ≤ rest.length := List.length_tail _ ▸ Nat.sub_le _ _
    · exact Nat.lt_trans (ih h) (by simp)

/-- Embedding of `re.sub(r"\*\*(.*?)\*\*", r"\1", text)` (app.py line
139): global substitution, scanning left to right; an opening `\*\*`
without a closing pair on the same line does not match, and scanning
resumes one character further. -/
def sub1 : List Char → List Char
  | [] => []
  | c :: rest =>
    if c = '*' ∧ rest.head? = some '*' then
      match hfc : findCloseStar2 [] rest.tail with
      | some ca => ca.1 ++ sub1 ca.2
      | none => c :: sub1 rest
    else c :: sub1 rest
termination_by l => l.length
decreasing_by
  · calc ca.2.length < rest.tail.length := findCloseStar2_shrink _ _ _ hfc
      _ ≤ rest.length := List.length_tail _ ▸ Nat.sub_le _ _
      _ < (c :: rest).length := by simp
  · simp
  · simp

/-- Embedding of `re.sub(r"\*(.*?)\*", r"\1", text)` (app.py line 140)
for `mark` the asterisk, and of `re.sub(r"(backquote)(.*?)(backquote)",
r"\1", text)` (app.py line 146) for `mark` the backquote. -/
def subWrap (mark : Char) : List Char → List Char
  | [] => []
  | c :: rest =>
    if c = mark then
      match hfc : findCloseChar mark [] rest with
      | some ca => ca.1 ++ subWrap mark ca.2
      | none => c :: subWrap mark rest
    else c :: subWrap mark rest
termination_by l => l.length
decreasing_by
  · exact Nat.lt_trans (findCloseChar_shrink _ _ _ _ hfc) (by simp)
  · simp
  · simp

/-- Maximal run of `#` characters dropped from the front of the text
(the `#+` part of the header pattern). -/
def hashTail (l : List Char) : List Char := l.dropWhile (fun x => x = '#')

/-- Maximal whitespace run following the leading hashes (the `\s+` part
of the header pattern, greedy; `\s` includes the newline). -/
def spaceRun (l : List Char) : List Char := (hashTail l).takeWhile isPySpace

/-- Remainder of the text after a matched header prefix `#+\s+`. -/
def afterHeader (l : List Char) : List Char := (hashTail l).dropWhile isPySpace

/-- Embedding of `re.sub(r"^#+\s+", "", text, flags=re.MULTILINE)`
(app.py line 142): `ls` records whether the current position is a line
start (string start or just after a newline).  A match requires at least
one `#` and at least one following whitespace character; scanning resumes
after the consumed whitespace, whose last character determines whether
the next position is a line start. -/
def sub3 (ls : Bool) : List Char → List Char
  | [] => []
  | c :: rest =>
    if hh : ls = true ∧ c = '#' then
      if spaceRun (c :: rest) = [] then c :: sub3 false rest
      else
        sub3 (decide ((spaceRun (c :: rest)).getLast? = some '\n')) (afterHeader (c :: rest))
    else c :: sub3 (decide (c = '\n')) rest
termination_by l => l.length
decreasing_by
  · simp
  · have h1 : hashTail (c :: rest) = rest.dropWhile (fun x => x = '#') := by
      simp [hashTail, List.dropWhile_cons, hh.2]
    calc (afterHeader (c :: rest)).length
        ≤ (hashTail (c :: rest)).length := (List.dropWhile_suffix _).sublist.length_le
      _ = (rest.dropWhile (fun x => x = '#')).length := by rw [h1]
      _ ≤ rest.length := (List.dropWhile_suffix _).sublist.length_le
      _ < (c :: rest).length := by simp
  · simp

/-- Embedding of `re.sub(r"(3 backquotes)(.*?)(3 backquotes)", "", text,
flags=re.DOTALL)` (app.py line 144): fenced code blocks are removed
entirely; an opening fence without a closing one does not match. -/
def sub4 : List Char → List Char
  | [] => []
  | c :: rest =>
    if c = backquote ∧ rest.head? = some backquote ∧ rest.tail.head? = some backquote then
      match hfc : findFenceClose rest.tail.tail with
      | some after => sub4 after
      | none => c :: sub4 rest
    else c :: sub4 rest
termination_by l => l.length
decreasing_by
  · calc after.length < rest.tail.tail.length := findFenceClose_shrink _ _ hfc
      _ ≤ rest.tail.length := List.length_tail _ ▸ Nat.sub_le _ _
      _ ≤ rest.length := List.length_tail _ ▸ Nat.sub_le _ _
      _ < (c :: rest).length := by simp
  · simp
  · simp

/-- Embedding of `strip_markdown` (app.py lines 133-147): the five
substitutions in source order (bold, italic, headers, fenced code blocks,
inline code).  The empty-input early return of the source coincides with
running the passes on the empty string. -/
def strip_markdown (t : List Char) : List Char :=
  subWrap backquote (sub4 (sub3 true (subWrap '*' (sub1 t))))

/-!
Definitions below named `spec_...` follow the wording of the
specification claims (not the source); they exist to be compared with the
source-derived definitions above.
-/

/-- Reversal of the negation prefix NOT-blank used by claim C1. -/
def spec_rev_not : List Char := [' ', 'T', 'O', 'N']

/-- Reversal of the negation prefix ISN'T-blank used by claim C1. -/
def spec_rev_isnt : List Char := [' ', 'T', apos, 'N', 'S', 'I']

/-- Scanner for claim C1 wording: looks for an occurrence of `p` that is
not immediately preceded by NOT-blank or ISN'T-blank; `rev` holds the
reversed text before the current position. -/
def spec_unnegScan (p : List Char) (rev : List Char) : List Char → Bool
  | [] => false
  | c :: rest =>
    (p.isPrefixOf (c :: rest) && !(spec_rev_not.isPrefixOf rev)
        && !(spec_rev_isnt.isPrefixOf rev))
      || spec_unnegScan p (c :: rev) rest

/-- Claim C1 wording: the text has an occurrence of `p` that is not
immediately preceded by a negation. -/
def spec_hasUnnegatedOccurrence (p s : List Char) : Bool := spec_unnegScan p [] s

/-- Claim C2 wording: count of policy-limited providers that are part of
the substantive accounting (which excludes policy-limited labels). -/
def spec_policy_in_substantive (rs : List (String × MResp)) : ℕ :=
  (substantive_judgments rs).countP (fun p => p.2 = Judgment.POLICY_LIMITED)

/-- Claim C2 wording: `non_policy_total` as n minus the count of
policy-limited providers that are part of the substantive accounting. -/
def spec_nonPolicyTotal (rs : List (String × MResp)) : ℤ :=
  (total_models rs : ℤ) - (spec_policy_in_substantive rs : ℤ)

/-- Claim C2 wording: pre-penalty confidence formula for a TRUE/FALSE
verdict, using the claim reading of `non_policy_total`. -/
def spec_confidence_formula (rs : List (String × MResp)) (v : Judgment) : ℚ :=
  min 100
    (((judgment_count rs v : ℚ) - (policy_aligned rs v : ℚ))
        / (spec_nonPolicyTotal rs : ℚ) * 100
      + (policy_aligned rs v : ℚ) / (total_models rs : ℚ) * 20)

/-!
Concrete inputs used by counterexamples and witnesses.
-/

/-- Response answering TRUE. -/
def tResp : MResp := ⟨true, some "TRUE".toList⟩

/-- Response answering FALSE. -/
def fResp : MResp := ⟨true, some "FALSE".toList⟩

/-- Response answering UNCERTAIN. -/
def uResp : MResp := ⟨true, some "UNCERTAIN".toList⟩

/-- Response declining on policy grounds. -/
def pResp : MResp := ⟨true, some "POLICY_LIMITED".toList⟩

/-- Failed provider response. -/
def failResp : MResp := ⟨false, none⟩

/-- Input with two TRUE answers, one FALSE answer and one policy-limited
answer. -/
def rs4 : List (String × MResp) :=
  [("openai", tResp), ("anthropic", tResp), ("mistral", fResp), ("deepseek", pResp)]

/-- Result of the aggregator on `rs4`. -/
def res4 : AnalysisResult :=
  { verdict := Judgment.TRUE
    confidence_percentage := 100
    confidence_level := "VERY HIGH"
    model_judgments :=
      [("openai", Judgment.TRUE), ("anthropic", Judgment.TRUE),
       ("mistral", Judgment.FALSE), ("deepseek", Judgment.POLICY_LIMITED)]
    policy_limited_responses := ["deepseek"]
    uncertain_responses := [] }

/-- Input with a TRUE/FALSE tie. -/
def rsTie : List (String × MResp) := [("A", tResp), ("B", fResp)]

/-- Input with two UNCERTAIN answers and one TRUE answer. -/
def rsUUT : List (String × MResp) := [("A", uResp), ("B", uResp), ("C", tResp)]

/-- Input with sixteen UNCERTAIN answers and seven TRUE answers
(uncertainty share 16/23, confidence 1600/23). -/
def rs23 : List (String × MResp) :=
  [("a", uResp), ("b", uResp), ("c", uResp), ("d", uResp), ("e", uResp),
   ("f", uResp), ("g", uResp), ("h", uResp), ("i", uResp), ("j", uResp),
   ("k", uResp), ("l", uResp), ("m", uResp), ("n", uResp), ("o", uResp),
   ("p", uResp), ("q", tResp), ("r", tResp), ("s", tResp), ("t", tResp),
   ("u", tResp), ("v", tResp), ("w", tResp)]

/-- Input in which every provider failed. -/
def rsAllFailed : List (String × MResp) :=
  [("openai", failResp), ("anthropic", failResp),
   ("mistral", failResp), ("deepseek", failResp)]

/-- Text with an unnegated FALSE occurrence and, elsewhere, a FALSE
occurrence preceded by NOT-blank; no uncertainty phrase. -/
def c1text : List Char := "The claim is FALSE. It is NOT FALSE that pigs fly.".toList

/-- Text containing paradox only as a fragment of the word paradoxical,
together with an explicit TRUE token. -/
def c7text : List Char := "This statement is paradoxical. TRUE.".toList

/-- Text containing paradox as a whole word. -/
def c7word : List Char := "It is a paradox.".toList

/-- Markdown-stripper input on which stripping is not idempotent. -/
def c8text : List Char := "# # x".toList

/-- Plain text without markdown trigger characters. -/
def c8plain : List Char := "hello world".toList

/-!
General lemmas about the aggregator.
-/

theorem verdictOf_cases (rs : List (String × MResp)) :
    verdictOf rs = Judgment.TRUE ∨ verdictOf rs = Judgment.FALSE
      ∨ verdictOf rs = Judgment.UNCERTAIN := by
  unfold verdictOf rawVerdict
  split_ifs <;> simp

theorem verdictOf_ne_policy (rs : List (String × MResp)) :
    verdictOf rs ≠ Judgment.POLICY_LIMITED := by
  rcases verdictOf_cases rs with h | h | h <;> simp [h]

theorem judgment_count_le_total (rs : List (String × MResp)) (j : Judgment) :
    judgment_count rs j ≤ total_models rs :=
  List.countP_le_length _

theorem buildJudgments_keys_sublist (rs : List (String × MResp)) :
    ((buildJudgments rs).map Prod.fst).Sublist (rs.map Prod.fst) := by
  induction rs with
  | nil => simp [buildJudgments]
  | cons mr rest ih =>
    unfold buildJudgments at ih ⊢
    rw [List.filterMap_cons, List.map_cons]
    cases h : labelOf mr.2 with
    | none => simpa using ih.cons mr.1
    | some j => simpa using ih.cons₂ mr.1

theorem lookup_of_mem_nodup {l : List (String × Judgment)} {m : String} {j : Judgment}
    (hn : (l.map Prod.fst).Nodup) (hm : (m, j) ∈ l) : l.lookup m = some j := by
  induction l with
  | nil => cases hm
  | cons p rest ih =>
    rw [List.map_cons, List.nodup_cons] at hn
    rcases List.mem_cons.mp hm with he | ht
    · rw [← he]
      simp [List.lookup]
    · have hne : (m == p.1) = false := by
        refine beq_eq_false_iff_ne.mpr (fun e => hn.1 ?_)
        rw [← e]
        exact List.mem_map_of_mem Prod.fst ht
      simp only [List.lookup, hne]
      exact ih hn.2 ht

theorem mem_policy_to_label (rs : List (String × MResp)) (m : String)
    (h : m ∈ policy_limited_responses rs) :
    (m, Judgment.POLICY_LIMITED) ∈ buildJudgments rs := by
  unfold policy_limited_responses at h
  rw [List.mem_filterMap] at h
  obtain ⟨⟨m1, j1⟩, hp, he⟩ := h
  by_cases hj : j1 = Judgment.POLICY_LIMITED
  · subst hj
    simp only [if_pos rfl] at he
    cases he
    exact hp
  · simp [hj] at he

theorem policy_aligned_eq_zero (rs : List (String × MResp))
    (hn : (rs.map Prod.fst).Nodup) (v : Judgment)
    (hv : v ≠ Judgment.POLICY_LIMITED) : policy_aligned rs v = 0 := by
  unfold policy_aligned
  rw [List.countP_eq_zero]
  intro m hm
  have h1 := mem_policy_to_label rs m hm
  have h2 := lookup_of_mem_nodup (hn.sublist (buildJudgments_keys_sublist rs)) h1
  simp [h2, Ne.symm hv]

theorem confidence_true_false_bounds (rs : List (String × MResp)) (v : Judgment)
    (hn0 : total_models rs ≠ 0) (hpa : policy_aligned rs v = 0) :
    0 ≤ confidence_true_false rs v ∧ confidence_true_false rs v ≤ 100 := by
  have hnq : (0 : ℚ) < (total_models rs : ℚ) := by
    exact_mod_cast Nat.pos_of_ne_zero hn0
  have hcn : (judgment_count rs v : ℚ) ≤ (total_models rs : ℚ) :=
    Nat.cast_le.mpr (judgment_count_le_total rs v)
  unfold confidence_true_false
  rw [hpa]
  split_ifs with hnp
  · have hq : (0 : ℚ) < (total_models rs : ℚ) - ((policy_limited_responses rs).length : ℚ) := by
      have : ((policy_limited_responses rs).length : ℚ) < (total_models rs : ℚ) := by
        exact_mod_cast hnp
      linarith
    constructor
    · refine le_min (by norm_num) ?_
      have h1 : (0 : ℚ) ≤ ((judgment_count rs v : ℚ) - ((0 : ℕ) : ℚ))
          / ((total_models rs : ℚ) - ((policy_limited_responses rs).length : ℚ)) * 100 := by
        apply mul_nonneg _ (by norm_num)
        apply div_nonneg _ (le_of_lt hq)
        simp
      have h2 : (0 : ℚ) ≤ (((0 : ℕ) : ℚ)) / (total_models rs : ℚ) * 20 := by
        simp
      linarith
    · exact le_trans (min_le_left _ _) (le_refl _)
  · constructor
    · positivity
    · have hdiv : (judgment_count rs v : ℚ) / (total_models rs : ℚ) ≤ 1 :=
        div_le_one_of_le₀ hcn (le_of_lt hnq)
      nlinarith

theorem confidenceOf_bounds (rs : List (String × MResp))
    (hn : (rs.map Prod.fst).Nodup) :
    0 ≤ confidenceOf rs ∧ confidenceOf rs ≤ 100 := by
  unfold confidenceOf
  split_ifs with h0 hu hcu
  · norm_num
  · have hnq : (0 : ℚ) < (total_models rs : ℚ) := by
      exact_mod_cast Nat.pos_of_ne_zero h0
    constructor
    · refine le_min (by norm_num) ?_
      positivity
    · exact le_trans (min_le_left _ _) (by norm_num)
  · have hpa := policy_aligned_eq_zero rs hn (verdictOf rs) (verdictOf_ne_policy rs)
    have hb := confidence_true_false_bounds rs (verdictOf rs) h0 hpa
    have hnq : (0 : ℚ) < (total_models rs : ℚ) := by
      exact_mod_cast Nat.pos_of_ne_zero h0
    have hpen : (0 : ℚ) ≤ (judgment_count rs Judgment.UNCERTAIN : ℚ) / (total_models rs : ℚ) * 30 := by
      positivity
    constructor
    · exact le_trans (by norm_num) (le_max_left _ _)
    · refine max_le (by norm_num) ?_
      linarith [hb.2]
  · have hpa := policy_aligned_eq_zero rs hn (verdictOf rs) (verdictOf_ne_policy rs)
    exact confidence_true_false_bounds rs (verdictOf rs) h0 hpa

theorem pyRound_bounds (q : ℚ) (h0 : 0 ≤ q) (h1 : q ≤ 100) :
    0 ≤ pyRound q ∧ pyRound q ≤ 100 := by
  unfold pyRound
  split_ifs with hhalf heven
  · constructor
    · exact Int.floor_nonneg.mpr h0
    · calc ⌊q⌋ ≤ ⌊(100 : ℚ)⌋ := Int.floor_le_floor h1
        _ = 100 := by norm_num
  · have hf0 : 0 ≤ ⌊q⌋ := Int.floor_nonneg.mpr h0
    have hfl : (⌊q⌋ : ℚ) = q - 1 / 2 := by linarith
    have hlt : (⌊q⌋ : ℚ) < 100 := by linarith
    have : ⌊q⌋ < 100 := by exact_mod_cast hlt
    omega
  · constructor
    · exact Int.floor_nonneg.mpr (by linarith)
    · calc ⌊q + 1 / 2⌋ ≤ ⌊(201 : ℚ) / 2⌋ := Int.floor_le_floor (by linarith)
        _ = 100 := by norm_num

theorem rs4_verdict : verdictOf rs4 = Judgment.TRUE := by
  unfold verdictOf rawVerdict
  rw [show judgment_count rs4 Judgment.TRUE = 2 from by decide,
      show judgment_count rs4 Judgment.FALSE = 1 from by decide,
      show judgment_count rs4 Judgment.UNCERTAIN = 0 from by decide,
      show total_models rs4 = 3 from by decide]
  norm_num

theorem rs4_ctf : confidence_true_false rs4 Judgment.TRUE = 100 := by
  unfold confidence_true_false
  rw [show judgment_count rs4 Judgment.TRUE = 2 from by decide,
      show policy_aligned rs4 Judgment.TRUE = 0 from by decide,
      show policy_limited_responses rs4 = ["deepseek"] from by decide,
      show total_models rs4 = 3 from by decide]
  norm_num

theorem rs4_confidence : confidenceOf rs4 = 100 := by
  unfold confidenceOf
  rw [rs4_verdict]
  rw [if_neg (by decide : ¬ total_models rs4 = 0),
      if_neg (by decide : ¬ Judgment.TRUE = Judgment.UNCERTAIN),
      if_neg (by decide : ¬ 0 < judgment_count rs4 Judgment.UNCERTAIN)]
  exact rs4_ctf

theorem rs4_analysis : analyze_responses rs4 = Except.ok res4 := by
  unfold analyze_responses
  rw [if_neg (by decide : ¬ total_models rs4 = 0), rs4_verdict, rs4_confidence]
  rw [show buildJudgments rs4 = res4.model_judgments from by decide,
      show policy_limited_responses rs4 = res4.policy_limited_responses from by decide,
      show uncertain_responses rs4 = res4.uncertain_responses from by decide]
  rw [show pyRound 100 = res4.confidence_percentage from by unfold pyRound; norm_num [res4],
      show confidence_level 100 = res4.confidence_level from by unfold confidence_level; norm_num [res4]]
  rfl

theorem rs23_verdict : verdictOf rs23 = Judgment.UNCERTAIN := by
  unfold verdictOf rawVerdict
  rw [if_neg (by decide : ¬(judgment_count rs23 Judgment.TRUE = judgment_count rs23 Judgment.FALSE ∧ 0 < judgment_count rs23 Judgment.TRUE))]
  rw [show judgment_count rs23 Judgment.UNCERTAIN = 16 from by decide,
      show total_models rs23 = 23 from by decide]
  norm_num

theorem rs23_confidence : confidenceOf rs23 = 1600 / 23 := by
  unfold confidenceOf
  rw [rs23_verdict]
  rw [if_neg (by decide : ¬ total_models rs23 = 0), if_pos rfl]
  rw [show judgment_count rs23 Judgment.UNCERTAIN = 16 from by decide,
      show total_models rs23 = 23 from by decide]
  rw [min_eq_right] <;> norm_num

theorem rs23_pct : pyRound (confidenceOf rs23) = 70 := by
  rw [rs23_confidence]
  unfold pyRound
  norm_num

theorem rs23_level : confidence_level (confidenceOf rs23) = "MEDIUM" := by
  rw [rs23_confidence]
  unfold confidence_level
  norm_num

theorem rs23_pair : (analyze_responses rs23).toOption.map
    (fun r => (r.confidence_percentage, r.confidence_level)) = some (70, "MEDIUM") := by
  unfold analyze_responses
  rw [if_neg (by decide : ¬ total_models rs23 = 0)]
  simp [rs23_pct, rs23_level, Except.toOption]

theorem rsUUT_verdict : verdictOf rsUUT = Judgment.UNCERTAIN := by
  unfold verdictOf rawVerdict
  rw [if_neg (by decide : ¬(judgment_count rsUUT Judgment.TRUE = judgment_count rsUUT Judgment.FALSE ∧ 0 < judgment_count rsUUT Judgment.TRUE))]
  rw [show judgment_count rsUUT Judgment.UNCERTAIN = 2 from by decide,
      show total_models rsUUT = 3 from by decide]
  norm_num

theorem rsUUT_confidence : confidenceOf rsUUT = 200 / 3 := by
  unfold confidenceOf
  rw [rsUUT_verdict]
  rw [if_neg (by decide : ¬ total_models rsUUT = 0), if_pos rfl]
  rw [show judgment_count rsUUT Judgment.UNCERTAIN = 2 from by decide,
      show total_models rsUUT = 3 from by decide]
  rw [min_eq_right] <;> norm_num

theorem rsUUT_pair : (analyze_responses rsUUT).toOption.map
    (fun r => (r.confidence_percentage, r.confidence_level)) = some (67, "MEDIUM") := by
  unfold analyze_responses
  rw [if_neg (by decide : ¬ total_models rsUUT = 0)]
  have h1 : pyRound (confidenceOf rsUUT) = 67 := by
    rw [rsUUT_confidence]; unfold pyRound; norm_num
  have h2 : confidence_level (confidenceOf rsUUT) = "MEDIUM" := by
    rw [rsUUT_confidence]; unfold confidence_level; norm_num
  simp [h1, h2, Except.toOption]

/-!
Identity lemmas for the markdown stripper on texts without the trigger
characters, and evaluation of the stripper on the header counterexample.
-/

theorem sub1_id (t : List Char) (h : '*' ∉ t) : sub1 t = t := by
  induction t with
  | nil => simp [sub1]
  | cons c rest ih =>
    have hc : ¬(c = '*' ∧ rest.head? = some '*') :=
      fun hand => h (hand.1 ▸ List.mem_cons_self c rest)
    rw [sub1, if_neg hc, ih (fun hm => h (List.mem_cons_of_mem _ hm))]

theorem subWrap_id (mark : Char) (t : List Char) (h : mark ∉ t) : subWrap mark t = t := by
  induction t with
  | nil => simp [subWrap]
  | cons c rest ih =>
    have hc : ¬c = mark := fun e => h (e ▸ List.mem_cons_self c rest)
    rw [subWrap, if_neg hc, ih (fun hm => h (List.mem_cons_of_mem _ hm))]

theorem sub3_id (ls : Bool) (t : List Char) (h : '#' ∉ t) : sub3 ls t = t := by
  induction t generalizing ls with
  | nil => simp [sub3]
  | cons c rest ih =>
    have hc : ¬(ls = true ∧ c = '#') :=
      fun hand => h (hand.2 ▸ List.mem_cons_self c rest)
    rw [sub3, dif_neg hc, ih _ (fun hm => h (List.mem_cons_of_mem _ hm))]

theorem sub4_id (t : List Char) (h : backquote ∉ t) : sub4 t = t := by
  induction t with
  | nil => simp [sub4]
  | cons c rest ih =>
    have hc : ¬(c = backquote ∧ rest.head? = some backquote
        ∧ rest.tail.head? = some backquote) :=
      fun hand => h (hand.1 ▸ List.mem_cons_self c rest)
    rw [sub4, if_neg hc, ih (fun hm => h (List.mem_cons_of_mem _ hm))]

theorem strip_markdown_id (t : List Char) (h1 : '*' ∉ t) (h2 : '#' ∉ t)
    (h3 : backquote ∉ t) : strip_markdown t = t := by
  unfold strip_markdown
  rw [sub1_id t h1, subWrap_id '*' t h1, sub3_id true t h2, sub4_id t h3,
    subWrap_id backquote t h3]

theorem c8_strip_once : strip_markdown c8text = "# x".toList := by
  simp [strip_markdown, c8text, sub1, subWrap, sub3, sub4, findCloseChar, findCloseStar2,
    findFenceClose, spaceRun, afterHeader, hashTail, isPySpace, backquote]

theorem c8_strip_twice : strip_markdown (strip_markdown c8text) = "x".toList := by
  rw [c8_strip_once]
  simp [strip_markdown, sub1, subWrap, sub3, sub4, findCloseChar, findCloseStar2,
    findFenceClose, spaceRun, afterHeader, hashTail, isPySpace, backquote]

/-!
Claim theorems.
-/

/-- Claim C1 (counterexample): the text of `c1text` has an occurrence of
FALSE not immediately preceded by a negation and no uncertainty phrase,
yet the classifier yields UNCERTAIN, not FALSE, because a different
occurrence of FALSE is preceded by NOT-blank and the negation test is a
whole-text substring test. -/
theorem C1_counterexample :
    spec_hasUnnegatedOccurrence "FALSE".toList (upperList c1text) = true ∧
    uncertaintyFlag c1text = false ∧
    labelOf ⟨true, some c1text⟩ = some Judgment.UNCERTAIN ∧
    Judgment.UNCERTAIN ≠ Judgment.FALSE := by decide

/-- Claim C1 (amended): the negation guard of the classifier is a
whole-text test, not a per-occurrence test.  FALSE is treated as asserted
exactly when the upper-cased text contains FALSE and contains neither
NOT FALSE nor ISN'T FALSE anywhere; classification yields FALSE exactly
when FALSE is so asserted and no uncertainty phrase occurs, and TRUE
exactly when FALSE is not so asserted, TRUE is so asserted and no
uncertainty phrase occurs. -/
theorem C1_whole_text_negation (t : List Char) :
    (classifyText t = Judgment.FALSE ↔
      false_asserted (upperList t) = true ∧ uncertaintyFlag t = false) ∧
    (classifyText t = Judgment.TRUE ↔
      false_asserted (upperList t) = false ∧ true_asserted (upperList t) = true
        ∧ uncertaintyFlag t = false) := by
  unfold classifyText
  cases hf : false_asserted (upperList t) <;>
    cases ht : true_asserted (upperList t) <;>
      cases hu : uncertaintyFlag t <;>
        simp [hf, ht, hu]

/-- Claim C2 (counterexample): on `rs4` the verdict is TRUE, the claim
reading of `non_policy_total` (n minus the policy-limited providers
inside the substantive accounting, hence n) is positive, there is no
uncertainty penalty, yet the confidence is 100 while the claim formula
evaluates to 200/3. -/
theorem C2_counterexample :
    verdictOf rs4 = Judgment.TRUE ∧
    0 < spec_nonPolicyTotal rs4 ∧
    judgment_count rs4 Judgment.UNCERTAIN = 0 ∧
    confidenceOf rs4 = 100 ∧
    spec_confidence_formula rs4 Judgment.TRUE = 200 / 3 ∧
    (100 : ℚ) ≠ 200 / 3 := by
  refine ⟨rs4_verdict, by decide, by decide, rs4_confidence, ?_, by norm_num⟩
  unfold spec_confidence_formula
  rw [show judgment_count rs4 Judgment.TRUE = 2 from by decide,
      show policy_aligned rs4 Judgment.TRUE = 0 from by decide,
      show spec_nonPolicyTotal rs4 = 3 from by decide,
      show total_models rs4 = 3 from by decide]
  rw [min_eq_right] <;> norm_num

/-- Claim C2 (amended): for a TRUE/FALSE verdict the pre-penalty
confidence equals min(100, ((count-of-verdict - policy_aligned) /
non_policy_total) * 100 + (policy_aligned / n) * 20), where
`non_policy_total` is n minus the total number of policy-limited
providers recorded for the request (all of which are excluded from the
substantive set); when the UNCERTAIN count is 0 this pre-penalty value is
the returned confidence. -/
theorem C2_code_non_policy_total (rs : List (String × MResp))
    (hv : verdictOf rs = Judgment.TRUE ∨ verdictOf rs = Judgment.FALSE)
    (hnp : ((policy_limited_responses rs).length : ℤ) < (total_models rs : ℤ)) :
    confidence_true_false rs (verdictOf rs) =
      min 100
        (((judgment_count rs (verdictOf rs) : ℚ) - (policy_aligned rs (verdictOf rs) : ℚ))
            / ((total_models rs : ℚ) - ((policy_limited_responses rs).length : ℚ)) * 100
          + (policy_aligned rs (verdictOf rs) : ℚ) / (total_models rs : ℚ) * 20) ∧
    (judgment_count rs Judgment.UNCERTAIN = 0 →
      confidenceOf rs = confidence_true_false rs (verdictOf rs)) := by
  constructor
  · unfold confidence_true_false
    rw [if_pos hnp]
  · intro hcu
    unfold confidenceOf
    have hn0 : ¬ total_models rs = 0 := by
      intro h0
      rw [h0] at hnp
      have h1 : (0 : ℤ) ≤ ((policy_limited_responses rs).length : ℤ) := Int.ofNat_nonneg _
      omega
    have hvne : ¬ verdictOf rs = Judgment.UNCERTAIN := by
      rcases hv with h | h <;> simp [h]
    rw [if_neg hn0, if_neg hvne, hcu]
    simp

/-- Claim C2 (witness): the amended statement holds on `rs4`. -/
theorem C2_witness :
    (verdictOf rs4 = Judgment.TRUE ∨ verdictOf rs4 = Judgment.FALSE) ∧
    ((policy_limited_responses rs4).length : ℤ) < (total_models rs4 : ℤ) ∧
    (confidence_true_false rs4 (verdictOf rs4) =
      min 100
        (((judgment_count rs4 (verdictOf rs4) : ℚ) - (policy_aligned rs4 (verdictOf rs4) : ℚ))
            / ((total_models rs4 : ℚ) - ((policy_limited_responses rs4).length : ℚ)) * 100
          + (policy_aligned rs4 (verdictOf rs4) : ℚ) / (total_models rs4 : ℚ) * 20) ∧
    (judgment_count rs4 Judgment.UNCERTAIN = 0 →
      confidenceOf rs4 = confidence_true_false rs4 (verdictOf rs4))) :=
  ⟨Or.inl rs4_verdict, by decide,
    C2_code_non_policy_total rs4 (Or.inl rs4_verdict) (by decide)⟩

/-- Claim C3 (counterexample): on `rs23` the returned confidence
percentage is 70 with level MEDIUM, but the thresholds applied to the
returned rounded integer 70 give HIGH; the level is therefore not
determined by the rounded integer. -/
theorem C3_counterexample :
    (analyze_responses rs23).toOption.map
        (fun r => (r.confidence_percentage, r.confidence_level)) = some (70, "MEDIUM") ∧
    confidence_level ((70 : ℤ) : ℚ) = "HIGH" ∧
    ("MEDIUM" : String) ≠ "HIGH" := by
  refine ⟨rs23_pair, ?_, by decide⟩
  unfold confidence_level
  norm_num

/-- Claim C3 (amended): the returned confidence_level is obtained by
applying the thresholds to the confidence value before rounding, while
the returned confidence_percentage is the rounded value; the two may
disagree. -/
theorem C3_level_from_preround (rs : List (String × MResp)) (res : AnalysisResult)
    (h : analyze_responses rs = Except.ok res) :
    res.confidence_level = confidence_level (confidenceOf rs) ∧
    res.confidence_percentage = pyRound (confidenceOf rs) := by
  unfold analyze_responses at h
  split_ifs at h
  cases h
  exact ⟨rfl, rfl⟩

/-- Claim C3 (witness): the amended statement holds on `rs4`. -/
theorem C3_witness :
    analyze_responses rs4 = Except.ok res4 ∧
    res4.confidence_level = confidence_level (confidenceOf rs4) ∧
    res4.confidence_percentage = pyRound (confidenceOf rs4) :=
  ⟨rs4_analysis, (C3_level_from_preround rs4 res4 rs4_analysis).1,
    (C3_level_from_preround rs4 res4 rs4_analysis).2⟩

/-- Claim C4: whenever the aggregator returns a result, the verdict is
one of TRUE, FALSE, UNCERTAIN (never RECUSE or POLICY_LIMITED) and the
confidence percentage is an integer in the interval from 0 to 100. -/
theorem C4_invariants (rs : List (String × MResp)) (hn : (rs.map Prod.fst).Nodup)
    (res : AnalysisResult) (h : analyze_responses rs = Except.ok res) :
    (res.verdict = Judgment.TRUE ∨ res.verdict = Judgment.FALSE
        ∨ res.verdict = Judgment.UNCERTAIN) ∧
    0 ≤ res.confidence_percentage ∧ res.confidence_percentage ≤ 100 := by
  unfold analyze_responses at h
  split_ifs at h
  cases h
  refine ⟨verdictOf_cases rs, ?_⟩
  have hb := confidenceOf_bounds rs hn
  exact pyRound_bounds _ hb.1 hb.2

/-- Claim C4 (witness): the invariants hold on the concrete run `rs4`. -/
theorem C4_witness :
    (rs4.map Prod.fst).Nodup ∧ analyze_responses rs4 = Except.ok res4 ∧
    (res4.verdict = Judgment.TRUE ∨ res4.verdict = Judgment.FALSE
        ∨ res4.verdict = Judgment.UNCERTAIN) ∧
    0 ≤ res4.confidence_percentage ∧ res4.confidence_percentage ≤ 100 :=
  ⟨by decide, rs4_analysis, C4_invariants rs4 (by decide) res4 rs4_analysis⟩

/-- Claim C5: when at least one substantive judgment exists and the
UNCERTAIN count reaches a third of the substantive count (rational
division, non-strict) or reaches 2, the verdict is UNCERTAIN and the
returned confidence is min(70, UNCERTAIN-share times 100), rounded. -/
theorem C5_uncertain_dominance (rs : List (String × MResp))
    (h1 : 1 ≤ total_models rs)
    (h2 : (judgment_count rs Judgment.UNCERTAIN : ℚ) ≥ (total_models rs : ℚ) / 3
        ∨ judgment_count rs Judgment.UNCERTAIN ≥ 2) :
    verdictOf rs = Judgment.UNCERTAIN ∧
    confidenceOf rs =
      min 70 ((judgment_count rs Judgment.UNCERTAIN : ℚ) / (total_models rs : ℚ) * 100) ∧
    (analyze_responses rs).toOption.map (fun r => r.confidence_percentage) =
      some (pyRound (min 70
        ((judgment_count rs Judgment.UNCERTAIN : ℚ) / (total_models rs : ℚ) * 100))) := by
  have hv : verdictOf rs = Judgment.UNCERTAIN := by
    unfold verdictOf
    split_ifs with ht
    · rfl
    · unfold rawVerdict
      rw [if_pos h2]
  have hn0 : ¬ total_models rs = 0 := by omega
  have hcf : confidenceOf rs =
      min 70 ((judgment_count rs Judgment.UNCERTAIN : ℚ) / (total_models rs : ℚ) * 100) := by
    unfold confidenceOf
    rw [hv, if_neg hn0, if_pos rfl]
  refine ⟨hv, hcf, ?_⟩
  unfold analyze_responses
  rw [if_neg hn0, hcf]
  simp [Except.toOption]

/-- Claim C5 (witness): on two UNCERTAIN answers and one TRUE answer the
verdict is UNCERTAIN with confidence 67 and level MEDIUM. -/
theorem C5_witness :
    1 ≤ total_models rsUUT ∧ 2 ≤ judgment_count rsUUT Judgment.UNCERTAIN ∧
    verdictOf rsUUT = Judgment.UNCERTAIN ∧
    (analyze_responses rsUUT).toOption.map
      (fun r => (r.confidence_percentage, r.confidence_level)) = some (67, "MEDIUM") :=
  ⟨by decide, by decide,
    (C5_uncertain_dominance rsUUT (by decide) (Or.inr (by decide))).1, rsUUT_pair⟩

/-- Claim C6: a tie between the substantive TRUE and FALSE counts with
both positive forces the verdict to UNCERTAIN. -/
theorem C6_tie_forces_uncertain (rs : List (String × MResp))
    (h1 : judgment_count rs Judgment.TRUE = judgment_count rs Judgment.FALSE)
    (h2 : 0 < judgment_count rs Judgment.TRUE) :
    verdictOf rs = Judgment.UNCERTAIN := by
  unfold verdictOf
  rw [if_pos ⟨h1, h2⟩]

/-- Claim C6 (witness): one TRUE answer against one FALSE answer yields
verdict UNCERTAIN. -/
theorem C6_witness :
    judgment_count rsTie Judgment.TRUE = judgment_count rsTie Judgment.FALSE ∧
    0 < judgment_count rsTie Judgment.TRUE ∧
    verdictOf rsTie = Judgment.UNCERTAIN :=
  ⟨by decide, by decide, C6_tie_forces_uncertain rsTie (by decide) (by decide)⟩

/-- Claim C7 (counterexample): the text of `c7text` contains paradox as a
substring (inside the word paradoxical), yet the response is labeled
TRUE, not RECUSE, because the recusal regex requires paradox as a whole
word. -/
theorem C7_counterexample :
    listContains "paradox".toList (lowerList c7text) = true ∧
    labelOf ⟨true, some c7text⟩ = some Judgment.TRUE ∧
    Judgment.TRUE ≠ Judgment.RECUSE := by decide

/-- Claim C7 (amended): every successful, non-empty response whose
lower-cased text contains paradox as a whole word (delimited by word
boundaries) is labeled RECUSE, and no TRUE/FALSE/UNCERTAIN
classification occurs for it. -/
theorem C7_word_paradox_recuse (r : MResp) (t : List Char)
    (h1 : r.success = true) (h2 : r.content = some t) (h3 : t ≠ [])
    (h4 : wordOccurs "paradox".toList (lowerList t) = true) :
    labelOf r = some Judgment.RECUSE := by
  unfold labelOf
  rw [h2]
  have hg : (r.success && !t.isEmpty) = true := by
    cases t with
    | nil => exact absurd rfl h3
    | cons c cs => rw [h1]; rfl
  show (if (r.success && !t.isEmpty) = true then some (labelResponse t) else none)
    = some Judgment.RECUSE
  rw [if_pos hg]
  have hr : detect_recusal t = true := by
    unfold detect_recusal
    simp only [Bool.or_eq_true]
    exact Or.inl (Or.inl (Or.inl (Or.inl (Or.inl (Or.inl (Or.inr h4))))))
  unfold labelResponse
  rw [if_pos hr]

/-- Claim C7 (witness): a response whose text contains paradox as a whole
word is labeled RECUSE. -/
theorem C7_witness :
    wordOccurs "paradox".toList (lowerList c7word) = true ∧
    labelOf ⟨true, some c7word⟩ = some Judgment.RECUSE :=
  ⟨by decide,
    C7_word_paradox_recuse ⟨true, some c7word⟩ c7word rfl rfl (by decide) (by decide)⟩

/-- Claim C8 (counterexample): stripping the header text twice differs
from stripping it once, because the global header substitution does not
rescan the replaced region. -/
theorem C8_counterexample :
    strip_markdown c8text = "# x".toList ∧
    strip_markdown (strip_markdown c8text) = "x".toList ∧
    strip_markdown (strip_markdown c8text) ≠ strip_markdown c8text := by
  refine ⟨c8_strip_once, c8_strip_twice, ?_⟩
  rw [c8_strip_twice, c8_strip_once]
  decide

/-- Claim C8 (amended): the normalizer is the identity, hence idempotent,
on every text containing none of the markdown trigger characters
(asterisk, hash, backquote); it is not idempotent in general. -/
theorem C8_idempotent_on_plain (t : List Char) (h1 : '*' ∉ t) (h2 : '#' ∉ t)
    (h3 : backquote ∉ t) :
    strip_markdown (strip_markdown t) = strip_markdown t := by
  rw [strip_markdown_id t h1 h2 h3]
  exact strip_markdown_id t h1 h2 h3

/-- Claim C8 (witness): stripping plain text twice equals stripping it
once. -/
theorem C8_witness :
    ('*' ∉ c8plain ∧ '#' ∉ c8plain ∧ backquote ∉ c8plain) ∧
    strip_markdown (strip_markdown c8plain) = strip_markdown c8plain :=
  ⟨⟨by decide, by decide, by decide⟩,
    C8_idempotent_on_plain c8plain (by decide) (by decide) (by decide)⟩

/-- Claim C9: when no provider yields a substantive judgment the
aggregator does not return the documented result; it raises
UnboundLocalError at the final logging line, although its own
zero-respondents branch computes verdict UNCERTAIN, confidence 0, level
VERY LOW. -/
theorem C9_zero_substantive_raises :
    total_models rsAllFailed = 0 ∧
    analyze_responses rsAllFailed =
      Except.error "UnboundLocalError: local variable agreement_count referenced before assignment" ∧
    verdictOf rsAllFailed = Judgment.UNCERTAIN ∧
    confidenceOf rsAllFailed = 0 ∧
    confidence_level 0 = "VERY LOW" := by
  refine ⟨by decide, rfl, ?_, ?_, ?_⟩
  · unfold verdictOf
    rw [if_neg (by decide : ¬(judgment_count rsAllFailed Judgment.TRUE =
        judgment_count rsAllFailed Judgment.FALSE
          ∧ 0 < judgment_count rsAllFailed Judgment.TRUE))]
    unfold rawVerdict
    have hc : (judgment_count rsAllFailed Judgment.UNCERTAIN : ℚ) ≥
        (total_models rsAllFailed : ℚ) / 3
          ∨ judgment_count rsAllFailed Judgment.UNCERTAIN ≥ 2 := by
      left
      rw [show judgment_count rsAllFailed Judgment.UNCERTAIN = 0 from by decide,
          show total_models rsAllFailed = 0 from by decide]
      norm_num
    rw [if_pos hc]
  · unfold confidenceOf
    rw [if_pos (by decide : total_models rsAllFailed = 0)]
  · unfold confidence_level
    norm_num

/-- Claim C10: with unique provider keys the policy-alignment count for
the final verdict is always 0 (a policy-limited provider stores the label
POLICY_LIMITED, never TRUE or FALSE), so for a TRUE/FALSE verdict with
positive `non_policy_total` the pre-penalty confidence is exactly
min(100, count-of-verdict / non_policy_total * 100). -/
theorem C10_policy_alignment_zero (rs : List (String × MResp))
    (hn : (rs.map Prod.fst).Nodup)
    (hv : verdictOf rs = Judgment.TRUE ∨ verdictOf rs = Judgment.FALSE)
    (hnp : ((policy_limited_responses rs).length : ℤ) < (total_models rs : ℤ)) :
    policy_aligned rs (verdictOf rs) = 0 ∧
    confidence_true_false rs (verdictOf rs) =
      min 100 ((judgment_count rs (verdictOf rs) : ℚ)
        / ((total_models rs : ℚ) - ((policy_limited_responses rs).length : ℚ)) * 100) := by
  have hpa := policy_aligned_eq_zero rs hn (verdictOf rs) (verdictOf_ne_policy rs)
  refine ⟨hpa, ?_⟩
  unfold confidence_true_false
  rw [if_pos hnp, hpa]
  norm_num

/-- Claim C10 (witness): the alignment count is 0 and the simplified
formula gives the confidence on `rs4`. -/
theorem C10_witness :
    (rs4.map Prod.fst).Nodup ∧
    (verdictOf rs4 = Judgment.TRUE ∨ verdictOf rs4 = Judgment.FALSE) ∧
    ((policy_limited_responses rs4).length : ℤ) < (total_models rs4 : ℤ) ∧
    policy_aligned rs4 (verdictOf rs4) = 0 ∧
    confidence_true_false rs4 (verdictOf rs4) =
      min 100 ((judgment_count rs4 (verdictOf rs4) : ℚ)
        / ((total_models rs4 : ℚ) - ((policy_limited_responses rs4).length : ℚ)) * 100) :=
  ⟨by decide, Or.inl rs4_verdict, by decide,
    C10_policy_alignment_zero rs4 (by decide) (Or.inl rs4_verdict) (by decide)⟩
